import Mathlib

/-!
# Verification of the node_energy_exporter RAPL collector

Shallow embedding of `src/main.go` (package `main`): the `RaplCollector`
type, `SanitizeMetricName`, `NewRaplCollector`, `Update`, `joulesMetric`
and `Describe`, together with a model of the external
`prometheus/procfs/sysfs` calls (`GetRaplZones`, `GetEnergyMicrojoules`)
as explicit state, and of `prometheus.BuildFQName` / descriptor / metric
construction.

Go machine values are modelled as follows: `uint64` counters as `Nat`,
`int` indices as `Int`, `float64` as `ℚ` (the division on line 95 is
modelled exactly; IEEE rounding is sign- and zero-preserving for the
nonneg-division facts proved here), Go errors as explicit inductive
error values, and the metric channel `ch` as the list of metrics sent to
it in order.
-/

/-- The character class `[0-9A-Za-z_]` of `metricNameRegex`
(src/main.go line 28): ASCII alphanumerics and underscore.
`Char.isAlphanum` is exactly ASCII `[0-9A-Za-z]`. -/
def isValidMetricChar (c : Char) : Bool :=
  c.isAlphanum || c == '_'

/-- Scanner modes for the replacement of `metricNameRegex`
(`_*[^0-9A-Za-z_]+_*`) by `"_"`, implementing Go
`regexp.ReplaceAllString`: repeatedly find the leftmost match and
replace it by a single underscore.

A match attempt at a position first consumes the run of underscores
there (the greedy leading `_*`; backtracking to fewer underscores cannot
help since the next character would then be `_`, which `[^0-9A-Za-z_]+`
rejects), so the attempt succeeds iff that run is followed by a
character outside `[0-9A-Za-z_]`; the match then extends over the
maximal invalid-character run and the following maximal underscore run
(the greedy trailing `_*`). Modes: `go` = scanning at a position with no
pending characters; `und n` = `n` underscores consumed that form a match
only if an invalid character follows, and are emitted unchanged
otherwise; `inv` = inside the invalid-character run of a match;
`trail` = inside the trailing underscore run of a match. -/
inductive SanMode
  | go
  | und (n : Nat)
  | inv
  | trail

/-- One pass of `metricNameRegex.ReplaceAllString · "_"` over the
remaining characters, in scanner mode `m` (see `SanMode`). -/
def sanRun : List Char → SanMode → List Char
  | [], .go => []
  | [], .und n => List.replicate n '_'
  | [], .inv => ['_']
  | [], .trail => ['_']
  | c :: cs, .go =>
      if c = '_' then sanRun cs (.und 1)
      else if isValidMetricChar c then c :: sanRun cs .go
      else sanRun cs .inv
  | c :: cs, .und n =>
      if c = '_' then sanRun cs (.und (n + 1))
      else if isValidMetricChar c then List.replicate n '_' ++ c :: sanRun cs .go
      else sanRun cs .inv
  | c :: cs, .inv =>
      if c = '_' then sanRun cs .trail
      else if isValidMetricChar c then '_' :: c :: sanRun cs .go
      else sanRun cs .inv
  | c :: cs, .trail =>
      if c = '_' then sanRun cs .trail
      else if isValidMetricChar c then '_' :: c :: sanRun cs .go
      else '_' :: sanRun cs .inv

/-- src/main.go lines 47-49: `SanitizeMetricName` replaces every match
of `metricNameRegex` in the metric name by an underscore. -/
def SanitizeMetricName (metricName : String) : String :=
  ⟨sanRun metricName.data .go⟩

/-- Go error values relevant to `Update`: `os.ErrNotExist`,
`os.ErrPermission`, and any other error (carrying its message). -/
inductive GoErr
  | notExist
  | permission
  | other (msg : String)
deriving DecidableEq

instance {ε α : Type} [DecidableEq ε] [DecidableEq α] : DecidableEq (Except ε α) := fun x y =>
  match x, y with
  | .ok a, .ok b =>
      if h : a = b then .isTrue (by rw [h])
      else .isFalse (by intro hc; cases hc; exact h rfl)
  | .ok _, .error _ => .isFalse (by intro hc; cases hc)
  | .error _, .ok _ => .isFalse (by intro hc; cases hc)
  | .error e, .error f =>
      if h : e = f then .isTrue (by rw [h])
      else .isFalse (by intro hc; cases hc; exact h rfl)

/-- `sysfs.RaplZone` (external `prometheus/procfs/sysfs`): name, index
(disambiguating duplicate names), sysfs path. -/
structure RaplZone where
  name : String
  index : Int
  path : String
deriving DecidableEq

/-- State of one enumerated zone at sampling time: the zone record
returned by `GetRaplZones`, and the outcome of reading its `energy_uj`
file (`GetEnergyMicrojoules`, a `uint64` counter on success). -/
structure ZoneState where
  zone : RaplZone
  energyUj : Except GoErr Nat
deriving DecidableEq

/-- Host state as observed by one `Update` call: the outcome of
`sysfs.GetRaplZones(c.fs)` (line 72), and, per zone, the outcome of
`rz.GetEnergyMicrojoules()` (line 86). -/
structure SysFsState where
  raplZones : Except GoErr (List ZoneState)
deriving DecidableEq

/-- `prometheus.Desc`: fully-qualified name, help text, variable label
names (the `constLabels` argument is `nil` everywhere in this program). -/
structure Desc where
  fqName : String
  help : String
  variableLabels : List String
deriving DecidableEq

/-- `prometheus.ValueType`: only `CounterValue` is used. -/
inductive ValueType
  | counterValue
deriving DecidableEq

/-- A metric sent on the channel by `prometheus.MustNewConstMetric`:
its descriptor, value type, value, and variable label values in order. -/
structure Metric where
  desc : Desc
  mtype : ValueType
  value : ℚ
  labelValues : List String
deriving DecidableEq

/-- Models `prometheus.BuildFQName`: joins the nonempty components of
namespace, subsystem and name with underscores; empty name gives "". -/
def buildFQName (ns sub nm : String) : String :=
  if nm = "" then ""
  else if ns ≠ "" ∧ sub ≠ "" then ns ++ "_" ++ sub ++ "_" ++ nm
  else if ns ≠ "" then ns ++ "_" ++ nm
  else if sub ≠ "" then sub ++ "_" ++ nm
  else nm

/-- src/main.go lines 31-34: the collector holds the sysfs handle
(modelled by its mount path, line 19: "/sys/") and the descriptor built
in `NewRaplCollector`. -/
structure RaplCollector where
  fs : String
  joulesMetricDesc : Desc
deriving DecidableEq

/-- src/main.go lines 51-67: `NewRaplCollector` opens the sysfs handle
(propagating failure) and builds the descriptor
`node_rapl_joules_total` with variable labels
`["instance", "package", "domain"]`. `fsRes` is the outcome of
`sysfs.NewFS(sysPath)`. -/
def NewRaplCollector (fsRes : Except GoErr String) : Except GoErr RaplCollector :=
  match fsRes with
  | .error e => .error e
  | .ok fs =>
      .ok ⟨fs, ⟨"node_rapl_joules_total", "Current RAPL value in joules",
        ["instance", "package", "domain"]⟩⟩

/-- src/main.go lines 102-121: `joulesMetric` builds a fresh per-zone
descriptor `node_rapl_<sanitized name>_joules_total` with variable
labels `["index", "path"]`, and a counter metric with label values
`[strconv.Itoa(z.Index), z.Path]`. -/
def RaplCollector.joulesMetric (_c : RaplCollector) (z : RaplZone) (v : ℚ) : Metric :=
  let index := toString z.index
  let descriptor : Desc :=
    ⟨buildFQName "node" "rapl" (SanitizeMetricName z.name ++ "_joules_total"),
     "Current RAPL " ++ z.name ++ " value in joules",
     ["index", "path"]⟩
  ⟨descriptor, .counterValue, v, [index, z.path]⟩

/-- The errors `Update` can return: `ErrNoData` (line 27), the wrapped
error of line 82, or the raw zone-read error returned on line 92. -/
inductive UpdateError
  | errNoData
  | retrieveFailed (e : GoErr)
  | zoneReadErr (e : GoErr)
deriving DecidableEq

/-- Outcome of one `Update` call: the metrics sent on `ch` in order
before returning, and the returned error value (`.ok ()` for `nil`). -/
structure UpdateResult where
  emitted : List Metric
  result : Except UpdateError Unit
deriving DecidableEq

/-- src/main.go lines 85-99: the loop body of `Update` over the zone
list. For each zone, read `energy_uj`: on `os.ErrPermission` return
`ErrNoData` (line 90), on any other error return that error (line 92);
on success convert microjoules to joules (line 95,
`float64(microJoules) / 1000000.0`) and send the metric (line 97). -/
def updateZones (c : RaplCollector) : List ZoneState → UpdateResult
  | [] => ⟨[], .ok ()⟩
  | z :: rest =>
      match z.energyUj with
      | .error .permission => ⟨[], .error .errNoData⟩
      | .error e => ⟨[], .error (.zoneReadErr e)⟩
      | .ok uj =>
          let joules : ℚ := (uj : ℚ) / 1000000
          let m := c.joulesMetric z.zone joules
          let r := updateZones c rest
          ⟨m :: r.emitted, r.result⟩

/-- src/main.go lines 70-100: `Update`. `GetRaplZones` failing with
`os.ErrNotExist` or `os.ErrPermission` gives `ErrNoData` (lines 74-81);
any other enumeration error is wrapped and returned (line 82);
otherwise the zone loop runs (`updateZones`). -/
def RaplCollector.Update (c : RaplCollector) (fs : SysFsState) : UpdateResult :=
  match fs.raplZones with
  | .error .notExist => ⟨[], .error .errNoData⟩
  | .error .permission => ⟨[], .error .errNoData⟩
  | .error e => ⟨[], .error (.retrieveFailed e)⟩
  | .ok zones => updateZones c zones

/-- src/main.go lines 123-125: `Describe` sends exactly the one
descriptor stored in the collector. -/
def RaplCollector.describe (c : RaplCollector) : List Desc :=
  [c.joulesMetricDesc]

/-- The `Update` method with the receiver threaded explicitly: the
method body (lines 70-100) contains no assignment to any field of `c`,
so the receiver passes through unchanged alongside the result. -/
def RaplCollector.UpdateM (c : RaplCollector) (fs : SysFsState) :
    UpdateResult × RaplCollector :=
  (c.Update fs, c)

/-- The energy value of a zone whose read succeeded, in joules. -/
def zoneJoules (z : ZoneState) : ℚ :=
  ((z.energyUj.toOption.getD 0 : Nat) : ℚ) / 1000000

/-- A host state exposing a single zone whose counter reads `uj`. -/
def singleZoneFs (z : RaplZone) (uj : Nat) : SysFsState :=
  ⟨.ok [⟨z, .ok uj⟩]⟩

/- ### Spec-modelled domain enumerator (for claim C6)

The enumeration itself lives in the external `prometheus/procfs/sysfs`
library (called on line 72), not under src/, so it is modelled from the
spec here. -/

/-- Modelled from the spec: a nested subdomain entry of the power-capping
hierarchy (a name, and whether its files are readable). -/
structure SubZone where
  name : String
  readable : Bool
deriving DecidableEq

/-- Modelled from the spec: a top-level package entry with its nested
subdomain entries. -/
structure PackageZone where
  packageId : String
  readable : Bool
  subzones : List SubZone
deriving DecidableEq

/-- Modelled from the spec: host state of the power-capping hierarchy —
absent, present but unreadable, or present with its package entries. -/
inductive Hierarchy
  | absent
  | permissionDenied
  | present (packages : List PackageZone)
deriving DecidableEq

/-- Spec §3: a DomainKey is derived from `(packageID, domainName)`. -/
def DomainKey := String × String
deriving DecidableEq

/-- Modelled from the spec: the Domain Enumerator (spec §4.1). The
external enumerator is not under src/; per the spec it walks top-level
package entries, and for each readable package yields the package-level
key (domain name "package") and the keys of its readable subdomains,
skipping unreadable entries; an absent or unreadable top level is the
corresponding error. -/
def enumerateDomainKeys : Hierarchy → Except GoErr (List DomainKey)
  | .absent => .error .notExist
  | .permissionDenied => .error .permission
  | .present pkgs =>
      .ok (pkgs.flatMap fun p =>
        if p.readable then
          (p.packageId, "package") ::
            p.subzones.filterMap fun s =>
              if s.readable then some (p.packageId, s.name) else none
        else [])

/-- One enumerator call with the host state threaded explicitly: pure
discovery, the host state is returned unchanged (spec §4.1: the
enumerator only reads the host-provided hierarchy). -/
def enumerateCall (h : Hierarchy) : Except GoErr (List DomainKey) × Hierarchy :=
  (enumerateDomainKeys h, h)

/- ### Concrete host states used as inputs in the theorems below -/

/-- A collector as built by `NewRaplCollector` with a working sysfs. -/
def exampleCollector : RaplCollector :=
  ⟨"/sys/", ⟨"node_rapl_joules_total", "Current RAPL value in joules",
    ["instance", "package", "domain"]⟩⟩

/-- A package-level RAPL zone. -/
def pkg0Zone : RaplZone := ⟨"package-0", 0, "/sys/class/powercap/intel-rapl:0"⟩

/-- A `core` subdomain of `pkg0Zone`. -/
def coreZone : RaplZone := ⟨"core", 0, "/sys/class/powercap/intel-rapl:0:0"⟩

/-- A `dram` subdomain of `pkg0Zone`, sibling of `coreZone`. -/
def dramZone : RaplZone := ⟨"dram", 0, "/sys/class/powercap/intel-rapl:0:1"⟩

/-- Host state in which the package and `dram` counters read fine but
the `core` subdomain's `energy_uj` file is permission-denied. -/
def fsCoreUnreadable : SysFsState :=
  ⟨.ok [⟨pkg0Zone, .ok 1000⟩, ⟨coreZone, .error .permission⟩, ⟨dramZone, .ok 2000⟩]⟩

/- ### Helper lemmas -/

/-- Running the `Update` loop over a zone list whose first section all
reads fine emits those zones' metrics in order, then behaves as the
loop over the remaining zones. -/
theorem updateZones_ok_append (c : RaplCollector) (pre rest : List ZoneState)
    (h : ∀ z ∈ pre, ∃ uj, z.energyUj = .ok uj) :
    updateZones c (pre ++ rest) =
      ⟨pre.map (fun z => c.joulesMetric z.zone (zoneJoules z)) ++ (updateZones c rest).emitted,
       (updateZones c rest).result⟩ := by
  induction pre with
  | nil => simp [updateZones]
  | cons z pre ih =>
    obtain ⟨uj, hu⟩ := h z (List.mem_cons_self z pre)
    have hrec := ih fun w hw => h w (List.mem_cons_of_mem z hw)
    simp [updateZones, hu, hrec, zoneJoules, Except.toOption]

/-- Every metric the `Update` loop emits is the joules metric of some
zone in the list whose counter read succeeded, at the value
`microjoules / 10^6`. -/
theorem updateZones_mem_emitted (c : RaplCollector) :
    ∀ (zs : List ZoneState) (m : Metric), m ∈ (updateZones c zs).emitted →
    ∃ z ∈ zs, ∃ uj, z.energyUj = .ok uj ∧ m = c.joulesMetric z.zone ((uj : ℚ) / 1000000) := by
  intro zs
  induction zs with
  | nil => intro m hm; simp [updateZones] at hm
  | cons z rest ih =>
    intro m hm
    match hz : z.energyUj with
    | .error .permission => simp [updateZones, hz] at hm
    | .error .notExist => simp [updateZones, hz] at hm
    | .error (.other s) => simp [updateZones, hz] at hm
    | .ok uj =>
      simp [updateZones, hz] at hm
      rcases hm with hm | hm
      · exact ⟨z, List.mem_cons_self z rest, uj, hz, hm⟩
      · obtain ⟨w, hw, v, hv, hmv⟩ := ih m hm
        exact ⟨w, List.mem_cons_of_mem z hw, v, hv, hmv⟩

/-- Every character produced by the sanitizer scanner, in any mode, lies
in the class `[0-9A-Za-z_]`: literal underscores are emitted for matches
and pending underscore runs, and other input characters are emitted only
after passing the `isValidMetricChar` test. -/
theorem sanRun_valid : ∀ (l : List Char) (m : SanMode) (c : Char),
    c ∈ sanRun l m → isValidMetricChar c = true := by
  intro l
  induction l with
  | nil =>
    intro m c hc
    cases m with
    | go => simp [sanRun] at hc
    | und n =>
      simp [sanRun, List.mem_replicate] at hc
      simp [hc.2, isValidMetricChar]
    | inv => simp [sanRun] at hc; simp [hc, isValidMetricChar]
    | trail => simp [sanRun] at hc; simp [hc, isValidMetricChar]
  | cons a as ih =>
    intro m c hc
    cases m with
    | go =>
      by_cases ha : a = '_'
      · simp [sanRun, ha] at hc
        exact ih _ _ hc
      · by_cases hv : isValidMetricChar a
        · simp [sanRun, ha, hv] at hc
          rcases hc with hc | hc
          · simpa [hc] using hv
          · exact ih _ _ hc
        · simp [sanRun, ha, hv] at hc
          exact ih _ _ hc
    | und n =>
      by_cases ha : a = '_'
      · simp [sanRun, ha] at hc
        exact ih _ _ hc
      · by_cases hv : isValidMetricChar a
        · simp [sanRun, ha, hv, List.mem_replicate] at hc
          rcases hc with ⟨_, hc⟩ | hc | hc
          · simp [hc, isValidMetricChar]
          · simpa [hc] using hv
          · exact ih _ _ hc
        · simp [sanRun, ha, hv] at hc
          exact ih _ _ hc
    | inv =>
      by_cases ha : a = '_'
      · simp [sanRun, ha] at hc
        exact ih _ _ hc
      · by_cases hv : isValidMetricChar a
        · simp [sanRun, ha, hv] at hc
          rcases hc with hc | hc | hc
          · simp [hc, isValidMetricChar]
          · simpa [hc] using hv
          · exact ih _ _ hc
        · simp [sanRun, ha, hv] at hc
          exact ih _ _ hc
    | trail =>
      by_cases ha : a = '_'
      · simp [sanRun, ha] at hc
        exact ih _ _ hc
      · by_cases hv : isValidMetricChar a
        · simp [sanRun, ha, hv] at hc
          rcases hc with hc | hc | hc
          · simp [hc, isValidMetricChar]
          · simpa [hc] using hv
          · exact ih _ _ hc
        · simp [sanRun, ha, hv] at hc
          rcases hc with hc | hc
          · simp [hc, isValidMetricChar]
          · exact ih _ _ hc

/-- On input all of whose characters already lie in `[0-9A-Za-z_]` the
sanitizer scanner is the identity (no position can start a regex match,
since no invalid character ever follows a pending underscore run). -/
theorem sanRun_of_valid : ∀ (l : List Char),
    (∀ c ∈ l, isValidMetricChar c = true) →
    sanRun l .go = l ∧ ∀ n, sanRun l (.und n) = List.replicate n '_' ++ l := by
  intro l
  induction l with
  | nil => intro _; exact ⟨rfl, fun n => by simp [sanRun]⟩
  | cons a as ih =>
    intro h
    have ha : isValidMetricChar a = true := h a (List.mem_cons_self a as)
    have has : ∀ c ∈ as, isValidMetricChar c = true :=
      fun c hc => h c (List.mem_cons_of_mem a hc)
    obtain ⟨ihgo, ihund⟩ := ih has
    constructor
    · by_cases hu : a = '_'
      · subst hu
        simp [sanRun, ihund 1]
      · simp [sanRun, hu, ha, ihgo]
    · intro n
      by_cases hu : a = '_'
      · subst hu
        simp [sanRun, ihund (n + 1), List.replicate_succ']
      · simp [sanRun, hu, ha, ihgo]

/- ### Claim theorems -/

/-- Claim C1, counterexample: on the spec's wraparound scenario (reading
4_000_000_000 then 50_000 with maximum range 4_294_967_295) the sample
for the second reading emits 50_000 / 10^6 = 1/20 joules — the absolute
counter value — not the wraparound-corrected delta 344_967_295 (nor its
joules equivalent): `Update` keeps no previous reading and computes no
delta. -/
theorem update_emits_absolute_not_delta_cex :
    (exampleCollector.Update (singleZoneFs pkg0Zone 4000000000)).emitted.map Metric.value
      = [4000] ∧
    (exampleCollector.Update (singleZoneFs pkg0Zone 50000)).emitted.map Metric.value
      = [1 / 20] ∧
    ((1 : ℚ) / 20 ≠ 344967295) ∧ ((1 : ℚ) / 20 ≠ 344967295 / 1000000) := by
  refine ⟨?_, ?_, by norm_num, by norm_num⟩ <;>
    · simp [RaplCollector.Update, singleZoneFs, updateZones, RaplCollector.joulesMetric]
      norm_num

/-- Claim C1, amended: for every sequence of successfully read raw
counter values, the value the sampler emits for reading `r_i` is the
absolute value `r_i / 10^6` joules, independent of the previous reading
and of the maximum range; no delta is computed and no wraparound
correction is applied. -/
theorem update_value_is_raw_counter_in_joules (c : RaplCollector) (z : RaplZone)
    (r1 r2 : Nat) :
    (c.Update (singleZoneFs z r1)).emitted.map Metric.value = [(r1 : ℚ) / 1000000] ∧
    (c.Update (singleZoneFs z r2)).emitted.map Metric.value = [(r2 : ℚ) / 1000000] := by
  constructor <;>
    simp [RaplCollector.Update, singleZoneFs, updateZones, RaplCollector.joulesMetric]

/-- Claim C2, counterexample: with the `core` subdomain unreadable
(permission denied) between the readable package counter and its
readable `dram` sibling, `Update` emits only the package metric and
returns `ErrNoData`: the `dram` sibling is NOT reported, contradicting
the claim that only the failing domain is omitted. -/
theorem update_sibling_omitted_after_failure_cex :
    (exampleCollector.Update fsCoreUnreadable).result = .error .errNoData ∧
    (exampleCollector.Update fsCoreUnreadable).emitted.map Metric.labelValues
      = [["0", pkg0Zone.path]] ∧
    (¬ ∃ m ∈ (exampleCollector.Update fsCoreUnreadable).emitted,
      m.labelValues = ["0", dramZone.path]) := by
  decide

/-- Claim C2, amended: if reading one domain's counter fails with a
permission error, the whole scrape aborts rather than skipping that
domain: zones before it in enumeration order have already been emitted,
the failing zone and every later zone are omitted, and `Update` returns
`ErrNoData`. -/
theorem update_aborts_on_zone_permission_error (c : RaplCollector) (fs : SysFsState)
    (pre post : List ZoneState) (zb : ZoneState)
    (hfs : fs.raplZones = .ok (pre ++ zb :: post))
    (hpre : ∀ z ∈ pre, ∃ uj, z.energyUj = .ok uj)
    (hb : zb.energyUj = .error .permission) :
    (c.Update fs).emitted = pre.map (fun z => c.joulesMetric z.zone (zoneJoules z)) ∧
    (c.Update fs).result = .error .errNoData := by
  have h1 : c.Update fs = updateZones c (pre ++ zb :: post) := by
    simp [RaplCollector.Update, hfs]
  have h2 := updateZones_ok_append c pre (zb :: post) hpre
  have h3 : updateZones c (zb :: post) = ⟨[], .error .errNoData⟩ := by
    simp [updateZones, hb]
  rw [h1, h2, h3]
  simp

/-- Witness for the amended claim C2 at the concrete host state
`fsCoreUnreadable`. -/
theorem update_aborts_on_zone_permission_error_witness :
    (exampleCollector.Update fsCoreUnreadable).emitted
      = [(⟨pkg0Zone, .ok 1000⟩ : ZoneState)].map
          (fun z => exampleCollector.joulesMetric z.zone (zoneJoules z)) ∧
    (exampleCollector.Update fsCoreUnreadable).result = .error .errNoData :=
  update_aborts_on_zone_permission_error exampleCollector fsCoreUnreadable
    [⟨pkg0Zone, .ok 1000⟩] [⟨dramZone, .ok 2000⟩] ⟨coreZone, .error .permission⟩
    rfl
    (by
      intro z hz
      rw [List.mem_singleton] at hz
      exact ⟨1000, by rw [hz]⟩)
    rfl

/-- Claim C3: when the top-level power-capping hierarchy cannot be read
(`os.ErrNotExist` or `os.ErrPermission` from `GetRaplZones`), `Update`
emits nothing and returns exactly `ErrNoData`; and a later call against
a readable host state with all counters readable returns `nil` and
emits one metric per zone. -/
theorem update_no_data_then_recovers (c : RaplCollector) (fs1 fs2 : SysFsState)
    (zs : List ZoneState)
    (h1 : fs1.raplZones = .error .notExist ∨ fs1.raplZones = .error .permission)
    (h2 : fs2.raplZones = .ok zs)
    (h3 : ∀ z ∈ zs, ∃ uj, z.energyUj = .ok uj) :
    c.Update fs1 = ⟨[], .error .errNoData⟩ ∧
    (c.Update fs2).result = .ok () ∧
    (c.Update fs2).emitted = zs.map fun z => c.joulesMetric z.zone (zoneJoules z) := by
  have hfs2 : c.Update fs2 = updateZones c zs := by
    simp [RaplCollector.Update, h2]
  have happ := updateZones_ok_append c zs [] h3
  rw [List.append_nil] at happ
  refine ⟨?_, ?_, ?_⟩
  · rcases h1 with h | h <;> simp [RaplCollector.Update, h]
  · rw [hfs2, happ]; rfl
  · rw [hfs2, happ]; simp [updateZones]

/-- Witness for claim C3: an absent hierarchy, then a host state with
one readable zone. -/
theorem update_no_data_then_recovers_witness :
    exampleCollector.Update ⟨.error .notExist⟩ = ⟨[], .error .errNoData⟩ ∧
    (exampleCollector.Update (singleZoneFs pkg0Zone 1000)).result = .ok () ∧
    (exampleCollector.Update (singleZoneFs pkg0Zone 1000)).emitted
      = [(⟨pkg0Zone, .ok 1000⟩ : ZoneState)].map
          (fun z => exampleCollector.joulesMetric z.zone (zoneJoules z)) :=
  update_no_data_then_recovers exampleCollector ⟨.error .notExist⟩
    (singleZoneFs pkg0Zone 1000) [⟨pkg0Zone, .ok 1000⟩]
    (Or.inl rfl) rfl
    (by
      intro z hz
      rw [List.mem_singleton] at hz
      exact ⟨1000, by rw [hz]⟩)

/-- Claim C4: every metric `Update` emits, over any host state, carries
a value ≥ 0 — the value is a `uint64` microjoule counter divided by
10^6, so negative energy is never emitted (wrapped counters included:
the emitted value is the raw counter itself, still nonnegative). -/
theorem update_emits_nonnegative (c : RaplCollector) (fs : SysFsState) (m : Metric)
    (hm : m ∈ (c.Update fs).emitted) : 0 ≤ m.value := by
  match hfs : fs.raplZones with
  | .error .notExist => simp [RaplCollector.Update, hfs] at hm
  | .error .permission => simp [RaplCollector.Update, hfs] at hm
  | .error (.other s) => simp [RaplCollector.Update, hfs] at hm
  | .ok zs =>
    rw [RaplCollector.Update, hfs] at hm
    obtain ⟨z, _, uj, _, hmv⟩ := updateZones_mem_emitted c zs m hm
    rw [hmv]
    show (0 : ℚ) ≤ (uj : ℚ) / 1000000
    positivity

/-- Witness for claim C4 at a concrete emitted metric. -/
theorem update_emits_nonnegative_witness :
    0 ≤ (exampleCollector.joulesMetric pkg0Zone ((50000 : ℚ) / 1000000)).value :=
  update_emits_nonnegative exampleCollector (singleZoneFs pkg0Zone 50000) _
    (by simp [RaplCollector.Update, singleZoneFs, updateZones])

/-- Claim C5, counterexample: the descriptor `Describe` sends declares
variable labels `["instance", "package", "domain"]`, but the metric
`Update` actually emits for a zone carries variable labels
`["index", "path"]` — the emitted label schema is not the declared one
and is not (host identity, package identifier, domain name). -/
theorem describe_vs_emitted_labels_cex :
    exampleCollector.describe
      = [⟨"node_rapl_joules_total", "Current RAPL value in joules",
          ["instance", "package", "domain"]⟩] ∧
    (exampleCollector.Update (singleZoneFs pkg0Zone 1000)).emitted.map
        (fun m => m.desc.variableLabels) = [["index", "path"]] ∧
    (["index", "path"] : List String) ≠ ["instance", "package", "domain"] := by
  refine ⟨rfl, ?_, by decide⟩
  simp [RaplCollector.Update, singleZoneFs, updateZones, RaplCollector.joulesMetric]

/-- Claim C5, amended: every metric `Update` emits carries the per-zone
label schema `["index", "path"]` with two label values (zone index and
zone path), while `Describe` declares the single stored descriptor,
which `NewRaplCollector` builds with variable labels
`["instance", "package", "domain"]` — a different schema that no
emitted metric uses. -/
theorem update_metric_labels_index_path (c : RaplCollector) (fs : SysFsState) (m : Metric)
    (hm : m ∈ (c.Update fs).emitted) :
    m.desc.variableLabels = ["index", "path"] ∧
    m.labelValues.length = 2 ∧
    c.describe = [c.joulesMetricDesc] ∧
    ∀ p, (NewRaplCollector (.ok p)).map
        (fun col => col.joulesMetricDesc.variableLabels)
      = .ok ["instance", "package", "domain"] := by
  have hz : ∃ zs, fs.raplZones = .ok zs := by
    match hfs : fs.raplZones with
    | .error .notExist => simp [RaplCollector.Update, hfs] at hm
    | .error .permission => simp [RaplCollector.Update, hfs] at hm
    | .error (.other s) => simp [RaplCollector.Update, hfs] at hm
    | .ok zs => exact ⟨zs, rfl⟩
  obtain ⟨zs, hfs⟩ := hz
  rw [RaplCollector.Update, hfs] at hm
  obtain ⟨z, _, uj, _, hmv⟩ := updateZones_mem_emitted c zs m hm
  subst hmv
  exact ⟨rfl, rfl, rfl, fun p => rfl⟩

/-- Witness for the amended claim C5 at a concrete emitted metric. -/
theorem update_metric_labels_index_path_witness :
    (exampleCollector.joulesMetric pkg0Zone ((1000 : ℚ) / 1000000)).desc.variableLabels
      = ["index", "path"] ∧
    (exampleCollector.joulesMetric pkg0Zone ((1000 : ℚ) / 1000000)).labelValues.length = 2 ∧
    exampleCollector.describe = [exampleCollector.joulesMetricDesc] ∧
    ∀ p, (NewRaplCollector (.ok p)).map
        (fun col => col.joulesMetricDesc.variableLabels)
      = .ok ["instance", "package", "domain"] :=
  update_metric_labels_index_path exampleCollector (singleZoneFs pkg0Zone 1000) _
    (by simp [RaplCollector.Update, singleZoneFs, updateZones])

/-- Claim C6: the domain enumerator is pure discovery over the host
state — one call leaves the host state unchanged, and a second call on
that unchanged state yields exactly the same domain keys as the
first. -/
theorem enumerate_twice_same_keys (h : Hierarchy) :
    (enumerateCall (enumerateCall h).2).1 = (enumerateCall h).1 ∧
    (enumerateCall h).2 = h :=
  ⟨rfl, rfl⟩

/-- Claim C8: for a zone whose `energy_uj` read succeeds with raw value
`uj` (and which the loop reaches because all earlier zones read fine),
the metric emitted at its position carries the value `uj / 10^6` — the
counter converted from microjoules to joules. -/
theorem update_converts_microjoules_to_joules (c : RaplCollector) (fs : SysFsState)
    (pre post : List ZoneState) (z : ZoneState) (uj : Nat)
    (hfs : fs.raplZones = .ok (pre ++ z :: post))
    (hpre : ∀ w ∈ pre, ∃ v, w.energyUj = .ok v)
    (hz : z.energyUj = .ok uj) :
    (c.Update fs).emitted[pre.length]?
      = some (c.joulesMetric z.zone ((uj : ℚ) / 1000000)) ∧
    (c.joulesMetric z.zone ((uj : ℚ) / 1000000)).value = (uj : ℚ) / 1000000 := by
  have h1 : c.Update fs = updateZones c (pre ++ z :: post) := by
    simp [RaplCollector.Update, hfs]
  have h2 := updateZones_ok_append c pre (z :: post) hpre
  have h3 : (updateZones c (z :: post)).emitted
      = c.joulesMetric z.zone ((uj : ℚ) / 1000000) :: (updateZones c post).emitted := by
    simp [updateZones, hz]
  refine ⟨?_, rfl⟩
  rw [h1, h2]
  show (List.map _ pre ++ (updateZones c (z :: post)).emitted)[pre.length]? = _
  rw [List.getElem?_append_right (by simp)]
  simp [h3]

/-- Witness for claim C8: a 2_500_000 µJ reading is emitted as 2.5 J. -/
theorem update_converts_microjoules_to_joules_witness :
    (exampleCollector.Update (singleZoneFs pkg0Zone 2500000)).emitted[(0 : Nat)]?
      = some (exampleCollector.joulesMetric pkg0Zone ((2500000 : ℚ) / 1000000)) ∧
    (exampleCollector.joulesMetric pkg0Zone ((2500000 : ℚ) / 1000000)).value
      = (2500000 : ℚ) / 1000000 :=
  update_converts_microjoules_to_joules exampleCollector (singleZoneFs pkg0Zone 2500000)
    [] [] ⟨pkg0Zone, .ok 2500000⟩ 2500000 rfl (by intro w hw; simp at hw) rfl

/-- Claim C9: `SanitizeMetricName` produces only ASCII alphanumerics and
underscores, and is idempotent (a sanitized name contains no character
the regex can match, so a second pass is the identity). -/
theorem sanitize_only_valid_chars_and_idempotent :
    (∀ (s : String), ∀ c ∈ (SanitizeMetricName s).data, isValidMetricChar c = true) ∧
    (∀ (s : String), SanitizeMetricName (SanitizeMetricName s) = SanitizeMetricName s) := by
  constructor
  · intro s c hc
    exact sanRun_valid s.data .go c hc
  · intro s
    show (⟨sanRun (sanRun s.data .go) .go⟩ : String) = ⟨sanRun s.data .go⟩
    have hval : ∀ c ∈ sanRun s.data .go, isValidMetricChar c = true :=
      fun c hc => sanRun_valid s.data .go c hc
    rw [(sanRun_of_valid (sanRun s.data .go) hval).1]

/-- Witness for claim C9 on the concrete name "package-0". -/
theorem sanitize_only_valid_chars_and_idempotent_witness :
    isValidMetricChar 'p' = true ∧
    SanitizeMetricName (SanitizeMetricName "package-0") = SanitizeMetricName "package-0" :=
  ⟨sanitize_only_valid_chars_and_idempotent.1 "package-0" 'p' (by decide),
   sanitize_only_valid_chars_and_idempotent.2 "package-0"⟩

/-- Claim C10: the `Update` method leaves the receiver unchanged (its
body assigns no collector field), and running it again over the same
host state emits the same metrics and returns the same result. -/
theorem update_receiver_unchanged_and_deterministic (c : RaplCollector) (fs : SysFsState) :
    (c.UpdateM fs).2 = c ∧
    ((c.UpdateM fs).2.UpdateM fs).1.emitted = (c.UpdateM fs).1.emitted ∧
    ((c.UpdateM fs).2.UpdateM fs).1.result = (c.UpdateM fs).1.result :=
  ⟨rfl, rfl, rfl⟩
